import Mathlib

/-!
Shallow embedding of `aiosmtplib/connection.py` (class `SMTPConnection`).

The mutable Python object is modelled as a Lean structure `SMTPConnection`
holding the stored configuration together with the `protocol`, `transport`,
`loop` and `_connect_lock` attributes.  Methods become pure state-passing
functions.  The asynchronous I/O performed during `connect` and
`execute_command` is abstracted as an explicit oracle (`ConnectWorld`,
`CommandOutcome`) describing what each awaited operation would do; the
method bodies themselves are translated statement by statement from the
source.  Python truthiness (`if self.sock:`, `any([...])`) is modelled
explicitly, since the source mixes `is not None` tests with truthiness
tests.  Exceptions are modelled by `Except` with an error type `PyErr`
whose constructors correspond to the exception classes raised by the
source; `raise X(...) from exc` is modelled by the optional `cause` field.
-/

namespace Aiosmtplib

/-- connection.py line 25. -/
def SMTP_PORT : Nat := 25

/-- connection.py line 26. -/
def SMTP_TLS_PORT : Nat := 465

/-- connection.py line 27. -/
def SMTP_STARTTLS_PORT : Nat := 587

/-- connection.py line 28. -/
def DEFAULT_TIMEOUT : Nat := 60

/-- Modelled from the spec: "SMTP Response — a status code (three-digit
integer) plus an ordered sequence of message lines"; the message text is
kept as one string, which is all `connection.py` inspects. -/
structure SMTPResponse where
  code : Nat
  message : String
deriving DecidableEq, Repr

/-- Modelled from the spec: the "service ready" status code is 220
(`SMTPStatus.ready` in the missing `typing.py`). -/
def SMTPStatus_ready : Nat := 220

/-- Modelled from the spec: the "service not available" status code is 421
(`SMTPStatus.domain_unavailable` in the missing `typing.py`). -/
def SMTPStatus_domain_unavailable : Nat := 421

/-- Modelled from the spec: a response is rendered as code-space-text
(`str(response)` from the missing `response.py`). -/
def pyStrResponse (r : SMTPResponse) : String :=
  toString r.code ++ " " ++ r.message

/-- A value passed as `source_address`: either the deprecated string form
(an alias for `local_hostname`) or the documented `(host, port)` pair. -/
inductive SourceAddr where
  | str (value : String)
  | pair (host : String) (port : Nat)
deriving DecidableEq, Repr

/-- An asyncio transport handle; `closing` is what `is_closing()` reports. -/
structure Transport where
  tid : Nat
  closing : Bool
deriving DecidableEq, Repr

/-- The exception classes raised by `connection.py`, with their message.
`connectError` / `connectTimeout` model `SMTPConnectError` /
`SMTPConnectTimeoutError`; `cause` models `raise ... from exc`.
`serverDisconnected` models `SMTPServerDisconnected`, `valueError` models
`ValueError`, `runtimeError` models `RuntimeError`.  Errors raised inside
the protocol engine and re-raised unchanged by `execute_command` are also
drawn from this type (`timeoutError` models `SMTPTimeoutError`,
`responseError` models `SMTPResponseException`). -/
inductive PyErr where
  | valueError (msg : String)
  | runtimeError (msg : String)
  | connectError (msg : String) (cause : Option String)
  | connectTimeout (msg : String) (cause : Option String)
  | serverDisconnected (msg : String)
  | timeoutError (msg : String)
  | responseError (code : Nat) (msg : String)
deriving DecidableEq, Repr

/-- Python truthiness of an `Optional[str]`: `None` and `""` are falsy. -/
def truthyStr : Option String → Bool
  | none => false
  | some s => !s.isEmpty

/-- Python truthiness of an `Optional[int]`: `None` and `0` are falsy. -/
def truthyNat : Option Nat → Bool
  | none => false
  | some n => n != 0

/-- Python truthiness of an `Optional[bool]`: only `True` is truthy. -/
def truthyBool : Option Bool → Bool
  | none => false
  | some b => b

/-- Python truthiness of an `Optional` source address: `None` and the empty
string are falsy; a tuple is always truthy. -/
def truthySourceAddr : Option SourceAddr → Bool
  | none => false
  | some (.str s) => !s.isEmpty
  | some (.pair _ _) => true

/-- Python `"\r" in h or "\n" in h`: membership of the character among
the characters of `h`. -/
def containsLineTerminator (h : String) : Bool :=
  h.data.contains '\r' || h.data.contains '\n'

/-- The state of an `SMTPConnection` instance: the stored configuration
attributes together with `protocol` (the bound engine, by identity),
`transport`, `loop` and `_connect_lock`.  `connectLock = none` models
`_connect_lock is None`; `some b` models a created lock with locked-state
`b`.  `timeout` values are opaque data to `connection.py`, so they are
modelled as `Option Nat`; TLS contexts and sockets are likewise opaque and
modelled by identity. -/
structure SMTPConnection where
  protocol : Option Nat
  transport : Option Transport
  hostname : Option String
  port : Option Nat
  loginUsername : Option String
  loginPassword : Option String
  localHostname : Option String
  sourceAddress : Option SourceAddr
  timeout : Option Nat
  useTls : Bool
  startTlsOnConnect : Option Bool
  validateCerts : Bool
  clientCert : Option String
  clientKey : Option String
  tlsContext : Option Nat
  certBundle : Option String
  socketPath : Option String
  sock : Option Nat
  loop : Option Unit
  connectLock : Option Bool
deriving DecidableEq, Repr

/-- `SMTPConnection._validate_config`, connection.py lines 236-267: a
sequential chain of checks, each raising `ValueError`.  Note the Python
truthiness in `any([self.hostname, self.port, self.socket_path])` and in
`if self._start_tls_on_connect and self.use_tls`. -/
def _validate_config (s : SMTPConnection) : Except PyErr Unit :=
  if truthyBool s.startTlsOnConnect && s.useTls then
    .error (.valueError "The start_tls and use_tls options are not compatible.")
  else if s.tlsContext.isSome && s.clientCert.isSome then
    .error (.valueError "Either a TLS context or a certificate/key must be provided")
  else if s.sock.isSome && (truthyStr s.hostname || truthyNat s.port || truthyStr s.socketPath) then
    .error (.valueError "The socket option is not compatible with hostname, port or socket_path")
  else if s.socketPath.isSome && (truthyStr s.hostname || truthyNat s.port) then
    .error (.valueError "The socket_path option is not compatible with hostname/port")
  else if (match s.localHostname with
           | some h => containsLineTerminator h
           | none => false) then
    .error (.valueError "The local_hostname param contains prohibited newline characters")
  else if (match s.hostname with
           | some h => containsLineTerminator h
           | none => false) then
    .error (.valueError "The hostname param contains prohibited newline characters")
  else
    .ok ()

/-- The keyword arguments of `SMTPConnection.__init__`, connection.py lines
41-59, with their default values (`hostname` defaults to `"localhost"`,
`timeout` to `DEFAULT_TIMEOUT`). -/
structure InitArgs where
  hostname : Option String := some "localhost"
  port : Option Nat := none
  username : Option String := none
  password : Option String := none
  localHostname : Option String := none
  sourceAddress : Option SourceAddr := none
  timeout : Option Nat := some DEFAULT_TIMEOUT
  useTls : Bool := false
  startTls : Option Bool := none
  validateCerts : Bool := true
  clientCert : Option String := none
  clientKey : Option String := none
  tlsContext : Option Nat := none
  certBundle : Option String := none
  socketPath : Option String := none
  sock : Option Nat := none
deriving Repr

/-- `SMTPConnection.__init__`, connection.py lines 96-132: assigns every
attribute, handles the deprecated string form of `source_address` (lines
117-127: `if source_address and isinstance(source_address, str)` stores it
into `_local_hostname`, otherwise `self.source_address = source_address`),
then calls `_validate_config`, so construction fails with `ValueError`
exactly when validation does. -/
def SMTPConnection.init (a : InitArgs) : Except PyErr SMTPConnection :=
  let base : SMTPConnection :=
    { protocol := none
      transport := none
      hostname := a.hostname
      port := a.port
      loginUsername := a.username
      loginPassword := a.password
      localHostname := a.localHostname
      sourceAddress := none
      timeout := a.timeout
      useTls := a.useTls
      startTlsOnConnect := a.startTls
      validateCerts := a.validateCerts
      clientCert := a.clientCert
      clientKey := a.clientKey
      tlsContext := a.tlsContext
      certBundle := a.certBundle
      socketPath := a.socketPath
      sock := a.sock
      loop := none
      connectLock := none }
  let s :=
    match a.sourceAddress with
    | some (.str v) =>
        if !v.isEmpty then { base with localHostname := some v }
        else { base with sourceAddress := a.sourceAddress }
    | _ => { base with sourceAddress := a.sourceAddress }
  match _validate_config s with
  | .error e => .error e
  | .ok _ => .ok s

/-- The keyword arguments of `connect` / `_update_settings_from_kwargs`,
connection.py lines 170-188.  The outer `Option` is the `_default`
sentinel (`none` = argument not provided); the inner value is what the
caller passed, which may itself be `None`.  As in the source, `use_tls`
and `validate_certs` use `None` itself as the not-provided sentinel. -/
structure ConnectArgs where
  hostname : Option (Option String) := none
  port : Option (Option Nat) := none
  username : Option (Option String) := none
  password : Option (Option String) := none
  localHostname : Option (Option String) := none
  sourceAddress : Option (Option SourceAddr) := none
  timeout : Option (Option Nat) := none
  useTls : Option Bool := none
  startTls : Option (Option Bool) := none
  validateCerts : Option Bool := none
  clientCert : Option (Option String) := none
  clientKey : Option (Option String) := none
  tlsContext : Option (Option Nat) := none
  certBundle : Option (Option String) := none
  socketPath : Option (Option String) := none
  sock : Option (Option Nat) := none
deriving Repr

/-- `SMTPConnection._update_settings_from_kwargs`, connection.py lines
170-234: one `if x is not _default: self.y = x` statement per keyword.
The statements each assign a distinct attribute, so they are rendered as a
single record update, except for `_local_hostname`, which is assigned both
by the `local_hostname` statement (line 210) and, later in program order,
by the deprecated string form of `source_address` (lines 212-220) — so a
provided string `source_address` wins, is stored into `_local_hostname`,
and leaves `self.source_address` untouched.  A provided non-string
`source_address` (a pair, or `None`) is stored into `self.source_address`
(line 222). -/
def _update_settings_from_kwargs (s : SMTPConnection) (k : ConnectArgs) : SMTPConnection :=
  { s with
    hostname := match k.hostname with | some v => v | none => s.hostname
    useTls := match k.useTls with | some v => v | none => s.useTls
    startTlsOnConnect := match k.startTls with | some v => v | none => s.startTlsOnConnect
    validateCerts := match k.validateCerts with | some v => v | none => s.validateCerts
    port := match k.port with | some v => v | none => s.port
    loginUsername := match k.username with | some v => v | none => s.loginUsername
    loginPassword := match k.password with | some v => v | none => s.loginPassword
    timeout := match k.timeout with | some v => v | none => s.timeout
    localHostname :=
      match k.sourceAddress with
      | some (some (.str v)) => some v
      | _ => match k.localHostname with | some v => v | none => s.localHostname
    sourceAddress :=
      match k.sourceAddress with
      | some (some (.str _)) => s.sourceAddress
      | some v => v
      | none => s.sourceAddress
    clientCert := match k.clientCert with | some v => v | none => s.clientCert
    clientKey := match k.clientKey with | some v => v | none => s.clientKey
    tlsContext := match k.tlsContext with | some v => v | none => s.tlsContext
    certBundle := match k.certBundle with | some v => v | none => s.certBundle
    socketPath := match k.socketPath with | some v => v | none => s.socketPath
    sock := match k.sock with | some v => v | none => s.sock }

/-- `SMTPConnection.close`, connection.py lines 525-536: initiates a
transport close if one exists and is not already closing (an effect on the
external transport, see `closeWouldCloseTransport`), releases the connect
lock if it is held, and unconditionally discards the `protocol` and
`transport` references.  No statement can raise. -/
def SMTPConnection.close (s : SMTPConnection) : SMTPConnection :=
  let s :=
    match s.connectLock with
    | some true => { s with connectLock := some false }
    | _ => s
  { s with protocol := none, transport := none }

/-- The decision at connection.py line 529: would `close` call
`self.transport.close()`? -/
def closeWouldCloseTransport (s : SMTPConnection) : Bool :=
  match s.transport with
  | some t => !t.closing
  | none => false

/-- What the awaited transport-opening coroutine does (connection.py line
421): returns a transport, raises `OSError`, or times out
(`asyncio.TimeoutError` from `asyncio.wait_for`, rendered as a string for
the `from exc` cause). -/
inductive OpenResult where
  | opened (t : Transport)
  | osError (exc : String)
  | timedOut (exc : String)
deriving DecidableEq, Repr

/-- What `protocol.read_response` does for the greeting (connection.py
line 435): returns a response, raises `SMTPServerDisconnected`, or raises
`SMTPTimeoutError`. -/
inductive GreetingResult where
  | response (r : SMTPResponse)
  | disconnected (exc : String)
  | timedOut (exc : String)
deriving DecidableEq, Repr

/-- The I/O oracle for one `connect` attempt: the outcome of opening the
transport, the outcome of reading the greeting, and the identity of the
freshly constructed `SMTPProtocol` (connection.py lines 381-383). -/
structure ConnectWorld where
  openResult : OpenResult
  greeting : GreetingResult
  freshProtocol : Nat
deriving DecidableEq, Repr

/-- Python `str()` of `self.hostname` inside an f-string: `None` renders
as `"None"`. -/
def pyStrOptStr : Option String → String
  | none => "None"
  | some s => s

/-- Python `str()` of `self.port` inside an f-string. -/
def pyStrOptNat : Option Nat → String
  | none => "None"
  | some n => toString n

/-- `SMTPConnection._create_connection`, connection.py lines 377-448:
checks the loop, selects the transport-opening coroutine (`if self.sock:`
/ `elif self.socket_path:` by truthiness, otherwise hostname/port with
`RuntimeError` guards, lines 391-418), awaits it mapping `OSError` to
`SMTPConnectError` and timeout to `SMTPConnectTimeoutError` (lines
420-429), binds `self.protocol` / `self.transport` (lines 431-432), reads
the greeting mapping disconnection to `SMTPConnectError` and timeout to
`SMTPConnectTimeoutError` (lines 434-443), and finally requires status
220, else `SMTPConnectError(str(response))` (lines 445-446).  The TLS
context construction of lines 385-389 only shapes the external coroutine
and is absorbed into the oracle. -/
def _create_connection (s : SMTPConnection) (w : ConnectWorld) :
    Except PyErr SMTPResponse × SMTPConnection :=
  if s.loop.isNone then
    (.error (.runtimeError "No event loop set"), s)
  else if !s.sock.isSome && !truthyStr s.socketPath && s.hostname.isNone then
    (.error (.runtimeError "No hostname provided; default should have been set"), s)
  else if !s.sock.isSome && !truthyStr s.socketPath && s.port.isNone then
    (.error (.runtimeError "No port provided; default should have been set"), s)
  else
    match w.openResult with
    | .osError exc =>
        (.error (.connectError
          ("Error connecting to " ++ pyStrOptStr s.hostname ++ " on port "
            ++ pyStrOptNat s.port ++ ": " ++ exc) (some exc)), s)
    | .timedOut exc =>
        (.error (.connectTimeout
          ("Timed out connecting to " ++ pyStrOptStr s.hostname ++ " on port "
            ++ pyStrOptNat s.port) (some exc)), s)
    | .opened t =>
        let s1 := { s with protocol := some w.freshProtocol, transport := some t }
        match w.greeting with
        | .disconnected exc =>
            (.error (.connectError
              ("Error connecting to " ++ pyStrOptStr s1.hostname ++ " on port "
                ++ pyStrOptNat s1.port ++ ": " ++ exc) (some exc)), s1)
        | .timedOut exc =>
            (.error (.connectTimeout "Timed out waiting for server ready message" (some exc)), s1)
        | .response r =>
            if r.code != SMTPStatus_ready then
              (.error (.connectError (pyStrResponse r) none), s1)
            else
              (.ok r, s1)

/-- The port-defaulting step of `connect`, connection.py lines 350-358:
only when `port`, `sock` and `socket_path` are all `None` (identity
tests), set 465 for direct TLS, 587 for STARTTLS, 25 otherwise. -/
def setDefaultPort (s : SMTPConnection) : SMTPConnection :=
  if s.port.isNone && s.sock.isNone && s.socketPath.isNone then
    if s.useTls then { s with port := some SMTP_TLS_PORT }
    else if truthyBool s.startTlsOnConnect then { s with port := some SMTP_STARTTLS_PORT }
    else { s with port := some SMTP_PORT }
  else s

/-- `SMTPConnection.connect`, connection.py lines 269-368: merges the
kwargs into the stored settings, re-validates (a `ValueError` propagates
with the merged settings kept, before the lock or any I/O), records the
running loop, creates the lock on first use and acquires it (modelled as
setting it held: a single sequential task only proceeds past `await
acquire()` once the lock is free), applies the port default, then runs
`_create_connection`; any exception from it triggers `close()` (resetting
to disconnected) and is re-raised.  `_post_connect` (line 370-375) is
`pass`. -/
def SMTPConnection.connect (s0 : SMTPConnection) (k : ConnectArgs) (w : ConnectWorld) :
    Except PyErr SMTPResponse × SMTPConnection :=
  let s := _update_settings_from_kwargs s0 k
  match _validate_config s with
  | .error e => (.error e, s)
  | .ok _ =>
      let s := { s with loop := some () }
      let s :=
        match s.connectLock with
        | none => { s with connectLock := some false }
        | some _ => s
      let s := { s with connectLock := some true }
      let s := setDefaultPort s
      match _create_connection s w with
      | (.error e, s1) => (.error e, s1.close)
      | (.ok r, s1) => (.ok r, s1)

/-- What `self.protocol.execute_command(*args, timeout=timeout)` does, as
a function of the effective timeout passed to it: returns a response or
raises. -/
inductive CommandOutcome where
  | response (r : SMTPResponse)
  | raised (e : PyErr)
deriving DecidableEq, Repr

/-- `SMTPConnection.execute_command`, connection.py lines 454-475: raises
`SMTPServerDisconnected("Server not connected")` if no protocol is bound,
resolves the `_default` timeout to `self.timeout`, delegates to the
protocol engine, and closes the connection before returning any response
whose code is 421 (`SMTPStatus.domain_unavailable`). -/
def SMTPConnection.execute_command (s : SMTPConnection)
    (timeoutArg : Option (Option Nat)) (w : Option Nat → CommandOutcome) :
    Except PyErr SMTPResponse × SMTPConnection :=
  match s.protocol with
  | none => (.error (.serverDisconnected "Server not connected"), s)
  | some _ =>
      let t := match timeoutArg with | none => s.timeout | some v => v
      match w t with
      | .raised e => (.error e, s)
      | .response r =>
          if r.code == SMTPStatus_domain_unavailable then (.ok r, s.close)
          else (.ok r, s)

/-- `SMTPConnection.get_transport_info`, connection.py lines 538-557:
raises `SMTPServerDisconnected("Server not connected")` if no transport is
bound, otherwise returns `transport.get_extra_info(key)` (an external
lookup, modelled as an oracle on the transport identity). -/
def SMTPConnection.get_transport_info (s : SMTPConnection) (key : String)
    (info : Nat → String → Option Nat) : Except PyErr (Option Nat) :=
  match s.transport with
  | none => .error (.serverDisconnected "Server not connected")
  | some t => .ok (info t.tid key)

/-- The validation conditions read literally from the claim and the data
model: "together with" / "set" interpreted as "is not None". -/
def configViolationClaimed (s : SMTPConnection) : Bool :=
  (truthyBool s.startTlsOnConnect && s.useTls) ||
  (s.tlsContext.isSome && s.clientCert.isSome) ||
  (s.sock.isSome && (s.hostname.isSome || s.port.isSome || s.socketPath.isSome)) ||
  (s.socketPath.isSome && (s.hostname.isSome || s.port.isSome)) ||
  (match s.localHostname with | some h => containsLineTerminator h | none => false) ||
  (match s.hostname with | some h => containsLineTerminator h | none => false)

/-- The validation conditions actually tested by `_validate_config`: in
the mutual-exclusion checks the co-present values are tested by Python
truthiness, so an empty hostname or socket path and a zero port do not
count as present. -/
def configViolation (s : SMTPConnection) : Bool :=
  (truthyBool s.startTlsOnConnect && s.useTls) ||
  (s.tlsContext.isSome && s.clientCert.isSome) ||
  (s.sock.isSome && (truthyStr s.hostname || truthyNat s.port || truthyStr s.socketPath)) ||
  (s.socketPath.isSome && (truthyStr s.hostname || truthyNat s.port)) ||
  (match s.localHostname with | some h => containsLineTerminator h | none => false) ||
  (match s.hostname with | some h => containsLineTerminator h | none => false)

/-- The state produced by `SMTPConnection()` with no arguments. -/
def defaultState : SMTPConnection :=
  { protocol := none
    transport := none
    hostname := some "localhost"
    port := none
    loginUsername := none
    loginPassword := none
    localHostname := none
    sourceAddress := none
    timeout := some DEFAULT_TIMEOUT
    useTls := false
    startTlsOnConnect := none
    validateCerts := true
    clientCert := none
    clientKey := none
    tlsContext := none
    certBundle := none
    socketPath := none
    sock := none
    loop := none
    connectLock := none }

/-- A state as left by a successful `connect`: engine and transport bound,
loop recorded, lock created and held. -/
def connState : SMTPConnection :=
  { defaultState with
    protocol := some 1
    transport := some ⟨2, false⟩
    port := some 25
    loop := some ()
    connectLock := some true }

/-- A world in which the transport opens and the server greets with 220. -/
def happyWorld : ConnectWorld :=
  { openResult := .opened ⟨5, false⟩
    greeting := .response ⟨220, "smtp.example.com ESMTP ready"⟩
    freshProtocol := 3 }

/-- A configuration with an external socket together with a zero port: the
port is set (not `None`), yet Python truthiness makes `_validate_config`
accept it. -/
def portZeroSockState : SMTPConnection :=
  { defaultState with hostname := none, port := some 0, sock := some 7 }

section Helpers

/-- `close` always clears the engine and transport references. -/
theorem close_clears (t : SMTPConnection) :
    t.close.protocol = none ∧ t.close.transport = none :=
  ⟨rfl, rfl⟩

/-- After `close` the connect lock is never in the held state. -/
theorem close_lock_not_held (t : SMTPConnection) :
    t.close.connectLock ≠ some true := by
  unfold SMTPConnection.close
  rcases hl : t.connectLock with _ | b
  · simp [hl]
  · cases b <;> simp [hl]

/-- The port-defaulting step never touches the connect lock. -/
theorem setDefaultPort_lock (s : SMTPConnection) :
    (setDefaultPort s).connectLock = s.connectLock := by
  unfold setDefaultPort
  split
  · split
    · rfl
    · split <;> rfl
  · rfl

/-- `_validate_config` succeeds exactly when no (truthiness-corrected)
invariant is violated. -/
theorem validate_ok_iff (s : SMTPConnection) :
    _validate_config s = .ok () ↔ configViolation s = false := by
  unfold _validate_config configViolation
  split_ifs <;> simp [*]

/-- Every error raised by `_validate_config` is a `ValueError`. -/
theorem validate_error_value (s : SMTPConnection) (e : PyErr)
    (h : _validate_config s = .error e) : ∃ m, e = .valueError m := by
  unfold _validate_config at h
  split_ifs at h
  case _ => exact ⟨_, by injection h with h1; exact h1.symm⟩
  case _ => exact ⟨_, by injection h with h1; exact h1.symm⟩
  case _ => exact ⟨_, by injection h with h1; exact h1.symm⟩
  case _ => exact ⟨_, by injection h with h1; exact h1.symm⟩
  case _ => exact ⟨_, by injection h with h1; exact h1.symm⟩
  case _ => exact ⟨_, by injection h with h1; exact h1.symm⟩

/-- A constructed instance satisfies the validation predicate: the tail of
`SMTPConnection.init` only returns states that passed `_validate_config`. -/
theorem init_validates (sX s0 : SMTPConnection)
    (h : (match _validate_config sX with
          | Except.error e => Except.error e
          | Except.ok _ => Except.ok sX) = Except.ok s0) :
    configViolation s0 = false := by
  rcases hv : _validate_config sX with e | val
  · rw [hv] at h
    simp at h
  · rw [hv] at h
    simp only [Except.ok.injEq] at h
    subst h
    cases val
    exact (validate_ok_iff _).mp hv

/-- Shape of a successful `_create_connection`: the returned greeting has
code 220, the engine and transport are bound, and the connect lock is
untouched. -/
theorem create_connection_ok_shape (s : SMTPConnection) (w : ConnectWorld)
    (r : SMTPResponse) (s1 : SMTPConnection)
    (h : _create_connection s w = (.ok r, s1)) :
    r.code = 220 ∧ s1.protocol.isSome ∧ s1.transport.isSome ∧
      s1.connectLock = s.connectLock := by
  unfold _create_connection at h
  split at h
  · simp at h
  · split at h
    · simp at h
    · split at h
      · simp at h
      · rcases hw : w.openResult with t | exc | exc <;> rw [hw] at h
        · dsimp only at h
          rcases hg : w.greeting with r0 | e2 | e2 <;> rw [hg] at h
          · dsimp only at h
            split at h
            · simp at h
            · next hne =>
              simp only [Prod.mk.injEq, Except.ok.injEq] at h
              obtain ⟨hr, hs⟩ := h
              subst hr
              subst hs
              refine ⟨?_, rfl, rfl, rfl⟩
              simpa [SMTPStatus_ready, bne_iff_ne] using hne
          · simp at h
          · simp at h
        · simp at h
        · simp at h

/-- Shape of a successful `connect`: the result is that of
`_create_connection` run on a state in which the lock is held. -/
theorem connect_ok_shape (s : SMTPConnection) (k : ConnectArgs) (w : ConnectWorld)
    (r : SMTPResponse) (s1 : SMTPConnection)
    (h : SMTPConnection.connect s k w = (.ok r, s1)) :
    ∃ sX, _create_connection sX w = (.ok r, s1) ∧ sX.connectLock = some true := by
  unfold SMTPConnection.connect at h
  dsimp only at h
  split at h
  · simp at h
  · split at h
    · simp at h
    · next heq =>
      simp only [Prod.mk.injEq, Except.ok.injEq] at h
      obtain ⟨hr, hs⟩ := h
      subst hr
      subst hs
      refine ⟨_, heq, ?_⟩
      rw [setDefaultPort_lock]

/-- Shape of a failing `connect`: either validation of the merged settings
failed (and the merged state is returned unchanged), or the final state is
the `close` of some state. -/
theorem connect_error_shape (s : SMTPConnection) (k : ConnectArgs) (w : ConnectWorld)
    (e : PyErr) (s1 : SMTPConnection)
    (h : SMTPConnection.connect s k w = (.error e, s1)) :
    (_validate_config (_update_settings_from_kwargs s k) = .error e ∧
      s1 = _update_settings_from_kwargs s k) ∨
    (∃ s2 : SMTPConnection, s1 = s2.close) := by
  unfold SMTPConnection.connect at h
  dsimp only at h
  split at h
  · next e0 heq =>
    simp only [Prod.mk.injEq, Except.error.injEq] at h
    obtain ⟨he, hs⟩ := h
    subst he
    exact Or.inl ⟨heq, hs.symm⟩
  · split at h
    · simp only [Prod.mk.injEq, Except.error.injEq] at h
      exact Or.inr ⟨_, h.2.symm⟩
    · simp at h

end Helpers

/-- C1: for a configuration whose connect-time merge passes validation,
`connect` either returns the 220 greeting with engine and transport bound,
or fails and leaves the instance with `protocol = None` and
`transport = None`; no other outcome is possible. -/
theorem connect_all_or_nothing (s : SMTPConnection) (k : ConnectArgs) (w : ConnectWorld)
    (hv : _validate_config (_update_settings_from_kwargs s k) = .ok ()) :
    (∀ r s1, SMTPConnection.connect s k w = (.ok r, s1) →
      r.code = 220 ∧ s1.protocol.isSome ∧ s1.transport.isSome) ∧
    (∀ e s1, SMTPConnection.connect s k w = (.error e, s1) →
      s1.protocol = none ∧ s1.transport = none) := by
  constructor
  · intro r s1 h
    obtain ⟨sX, hcc, _⟩ := connect_ok_shape s k w r s1 h
    obtain ⟨hr, hp, ht, _⟩ := create_connection_ok_shape sX w r s1 hcc
    exact ⟨hr, hp, ht⟩
  · intro e s1 h
    rcases connect_error_shape s k w e s1 h with ⟨hval, _⟩ | ⟨s2, hs⟩
    · rw [hv] at hval
      exact absurd hval (by simp)
    · rw [hs]
      exact close_clears s2

/-- Witness for C1: connecting the freshly constructed instance in a world
where the server greets with 220. -/
theorem connect_all_or_nothing_witness :
    _validate_config (_update_settings_from_kwargs defaultState {}) = .ok () ∧
    ((∀ r s1, SMTPConnection.connect defaultState {} happyWorld = (.ok r, s1) →
      r.code = 220 ∧ s1.protocol.isSome ∧ s1.transport.isSome) ∧
     (∀ e s1, SMTPConnection.connect defaultState {} happyWorld = (.error e, s1) →
      s1.protocol = none ∧ s1.transport = none)) :=
  ⟨rfl, connect_all_or_nothing defaultState {} happyWorld rfl⟩

/-- C2: the error mapping inside `_create_connection`: a transport-open
timeout raises `SMTPConnectTimeoutError`; an `OSError` while opening
raises `SMTPConnectError` whose message carries the hostname, the port and
the underlying cause (also attached as the cause); a disconnection while
reading the greeting raises `SMTPConnectError`; a timeout while reading
the greeting raises `SMTPConnectTimeoutError`; and a greeting whose status
code is not 220 raises `SMTPConnectError` carrying the rendered
response. -/
theorem connect_error_mapping (s : SMTPConnection) (w : ConnectWorld)
    (hloop : s.loop.isSome = true)
    (htarget : s.sock.isSome = true ∨ truthyStr s.socketPath = true ∨
      (s.hostname.isSome = true ∧ s.port.isSome = true)) :
    (∀ exc, w.openResult = .timedOut exc →
      (_create_connection s w).1 = .error (.connectTimeout
        ("Timed out connecting to " ++ pyStrOptStr s.hostname ++ " on port "
          ++ pyStrOptNat s.port) (some exc))) ∧
    (∀ exc, w.openResult = .osError exc →
      (_create_connection s w).1 = .error (.connectError
        ("Error connecting to " ++ pyStrOptStr s.hostname ++ " on port "
          ++ pyStrOptNat s.port ++ ": " ++ exc) (some exc))) ∧
    (∀ t exc, w.openResult = .opened t → w.greeting = .disconnected exc →
      (_create_connection s w).1 = .error (.connectError
        ("Error connecting to " ++ pyStrOptStr s.hostname ++ " on port "
          ++ pyStrOptNat s.port ++ ": " ++ exc) (some exc))) ∧
    (∀ t exc, w.openResult = .opened t → w.greeting = .timedOut exc →
      (_create_connection s w).1 =
        .error (.connectTimeout "Timed out waiting for server ready message" (some exc))) ∧
    (∀ t r, w.openResult = .opened t → w.greeting = .response r → r.code ≠ 220 →
      (_create_connection s w).1 = .error (.connectError (pyStrResponse r) none)) := by
  obtain ⟨u, hu⟩ := Option.isSome_iff_exists.mp hloop
  have hcond1 : ¬((s.sock = none ∧ truthyStr s.socketPath = false) ∧ s.hostname = none) := by
    rcases htarget with h | h | ⟨h1, h2⟩
    · obtain ⟨v, hv⟩ := Option.isSome_iff_exists.mp h
      simp [hv]
    · simp [h]
    · obtain ⟨v1, hv1⟩ := Option.isSome_iff_exists.mp h1
      simp [hv1]
  have hcond2 : ¬((s.sock = none ∧ truthyStr s.socketPath = false) ∧ s.port = none) := by
    rcases htarget with h | h | ⟨h1, h2⟩
    · obtain ⟨v, hv⟩ := Option.isSome_iff_exists.mp h
      simp [hv]
    · simp [h]
    · obtain ⟨v2, hv2⟩ := Option.isSome_iff_exists.mp h2
      simp [hv2]
  refine ⟨?_, ?_, ?_, ?_, ?_⟩ <;> intros <;>
    simp [_create_connection, hu, hcond1, hcond2, SMTPStatus_ready, bne_iff_ne, *]

/-- Witness for C2: a refused TCP connection on the default target maps to
`SMTPConnectError` carrying host, port and cause. -/
theorem connect_error_mapping_witness :
    ({ defaultState with loop := some (), port := some 25 } :
        SMTPConnection).loop.isSome = true ∧
    ((ConnectWorld.mk (.osError "Connection refused") (.response ⟨220, "ready"⟩) 0).openResult =
      .osError "Connection refused") ∧
    (_create_connection { defaultState with loop := some (), port := some 25 }
        (ConnectWorld.mk (.osError "Connection refused") (.response ⟨220, "ready"⟩) 0)).1 =
      .error (.connectError
        ("Error connecting to " ++ pyStrOptStr (some "localhost") ++ " on port "
          ++ pyStrOptNat (some 25) ++ ": " ++ "Connection refused")
        (some "Connection refused")) :=
  ⟨rfl, rfl,
    (connect_error_mapping { defaultState with loop := some (), port := some 25 }
      (ConnectWorld.mk (.osError "Connection refused") (.response ⟨220, "ready"⟩) 0)
      rfl (Or.inr (Or.inr ⟨rfl, rfl⟩))).2.1 "Connection refused" rfl⟩

/-- C8: the connect lock is released on every exit path: starting from a
state where it is not held, a failing `connect` (any error, including
validation errors, transport-construction errors and greeting errors)
leaves it not held, a successful `connect` leaves it held, and `close`
always leaves it not held. -/
theorem connect_lock_discipline (s : SMTPConnection) (k : ConnectArgs) (w : ConnectWorld)
    (hfree : s.connectLock ≠ some true) :
    (∀ e s1, SMTPConnection.connect s k w = (.error e, s1) →
      s1.connectLock ≠ some true) ∧
    (∀ r s1, SMTPConnection.connect s k w = (.ok r, s1) →
      s1.connectLock = some true) ∧
    (∀ t : SMTPConnection, t.close.connectLock ≠ some true) := by
  refine ⟨?_, ?_, close_lock_not_held⟩
  · intro e s1 h
    rcases connect_error_shape s k w e s1 h with ⟨_, hs⟩ | ⟨s2, hs⟩
    · rw [hs]
      exact hfree
    · rw [hs]
      exact close_lock_not_held s2
  · intro r s1 h
    obtain ⟨sX, hcc, hlock⟩ := connect_ok_shape s k w r s1 h
    rw [(create_connection_ok_shape sX w r s1 hcc).2.2.2, hlock]

/-- Witness for C8: a fresh instance has no held lock, and the discipline
holds for it in the happy world. -/
theorem connect_lock_discipline_witness :
    defaultState.connectLock ≠ some true ∧
    ((∀ e s1, SMTPConnection.connect defaultState {} happyWorld = (.error e, s1) →
      s1.connectLock ≠ some true) ∧
     (∀ r s1, SMTPConnection.connect defaultState {} happyWorld = (.ok r, s1) →
      s1.connectLock = some true) ∧
     (∀ t : SMTPConnection, t.close.connectLock ≠ some true)) :=
  ⟨by simp [defaultState], connect_lock_discipline defaultState {} happyWorld (by simp [defaultState])⟩

/-- C5: in `connect`, when the merged configuration has `port`, `sock` and
`socket_path` all unset, the port is defaulted to 465 for direct TLS, 587
for STARTTLS, 25 otherwise; when the port is already set or a socket /
socket-path target is set, the state (in particular the port) is left
unchanged. -/
theorem connect_default_port (s : SMTPConnection) :
    (s.port = none → s.sock = none → s.socketPath = none →
      (setDefaultPort s).port =
        some (if s.useTls then 465
              else if truthyBool s.startTlsOnConnect then 587 else 25)) ∧
    ((s.port.isSome ∨ s.sock.isSome ∨ s.socketPath.isSome) →
      setDefaultPort s = s) := by
  constructor
  · intro hp hs hsp
    cases hu : s.useTls <;> cases ht : truthyBool s.startTlsOnConnect <;>
      simp [setDefaultPort, hp, hs, hsp, hu, ht,
        SMTP_PORT, SMTP_TLS_PORT, SMTP_STARTTLS_PORT]
  · intro h
    rcases h with h | h | h <;>
      obtain ⟨v, hv⟩ := Option.isSome_iff_exists.mp h <;>
      simp [setDefaultPort, hv]

/-- Witness for C5: a STARTTLS configuration with no port gets 587. -/
theorem connect_default_port_witness :
    (setDefaultPort { defaultState with startTlsOnConnect := some true }).port = some 587 := by
  simpa using
    (connect_default_port { defaultState with startTlsOnConnect := some true }).1 rfl rfl rfl

/-- Counterexample for C6: an external socket together with a set (but
zero, hence falsy) port violates the claimed invariant, yet
`_validate_config` accepts the configuration without raising. -/
theorem validate_config_counterexample :
    portZeroSockState.sock.isSome = true ∧
    portZeroSockState.port.isSome = true ∧
    configViolationClaimed portZeroSockState = true ∧
    _validate_config portZeroSockState = .ok () :=
  ⟨rfl, rfl, rfl, rfl⟩

/-- C6 (amended): `_validate_config` raises `ValueError` exactly when a
truthiness-corrected invariant is violated (in the socket / socket-path
mutual-exclusion checks, a value counts as present only when truthy); the
error is always a `ValueError`; validation runs at construction time (a
constructed instance never violates the invariants) and again after each
connect-time merge, before any I/O (an invalid merged configuration makes
`connect` return the validation error with the merged settings kept,
independently of the network world). -/
theorem validate_config_exactly (s : SMTPConnection) :
    (_validate_config s = .ok () ↔ configViolation s = false) ∧
    (∀ e, _validate_config s = .error e → ∃ m, e = .valueError m) ∧
    (∀ a s0, SMTPConnection.init a = .ok s0 → configViolation s0 = false) ∧
    (∀ k w e, _validate_config (_update_settings_from_kwargs s k) = .error e →
      SMTPConnection.connect s k w = (.error e, _update_settings_from_kwargs s k)) := by
  refine ⟨validate_ok_iff s, validate_error_value s, ?_, ?_⟩
  · intro a s0 h
    unfold SMTPConnection.init at h
    exact init_validates _ _ h
  · intro k w e h
    simp [SMTPConnection.connect, h]

/-- Witness for C6: a start_tls + use_tls configuration is rejected with a
`ValueError` at validation time. -/
theorem validate_config_exactly_witness :
    _validate_config { defaultState with startTlsOnConnect := some true, useTls := true } =
      .error (.valueError "The start_tls and use_tls options are not compatible.") ∧
    (∃ m, (PyErr.valueError "The start_tls and use_tls options are not compatible.") =
      .valueError m) :=
  ⟨rfl,
    (validate_config_exactly
      { defaultState with startTlsOnConnect := some true, useTls := true }).2.1 _ rfl⟩

/-- C7: `close` is idempotent and total: from any state it clears the
engine and transport references, leaves the connect lock unheld, closing
it a second time produces the same state, and the second call would not
even initiate a transport close. -/
theorem close_idempotent (s : SMTPConnection) :
    s.close.close = s.close ∧
    s.close.protocol = none ∧
    s.close.transport = none ∧
    s.close.connectLock ≠ some true ∧
    closeWouldCloseTransport s.close = false := by
  refine ⟨?_, rfl, rfl, close_lock_not_held s, rfl⟩
  unfold SMTPConnection.close
  rcases hl : s.connectLock with _ | b
  · simp [hl]
  · cases b <;> simp [hl]

/-- C3: when an engine is bound, every response returned by
`execute_command` with code 421 comes with the connection closed (state is
exactly `close` of the previous state, so engine and transport are
cleared), and every response with another code leaves the state exactly
unchanged. -/
theorem execute_command_421_closes (s : SMTPConnection) (tk : Option (Option Nat))
    (w : Option Nat → CommandOutcome) (hp : s.protocol.isSome = true) :
    ∀ r s1, SMTPConnection.execute_command s tk w = (.ok r, s1) →
      (r.code = 421 → s1 = s.close ∧ s1.protocol = none ∧ s1.transport = none) ∧
      (r.code ≠ 421 → s1 = s) := by
  intro r s1 h
  obtain ⟨p, hps⟩ := Option.isSome_iff_exists.mp hp
  unfold SMTPConnection.execute_command at h
  rw [hps] at h
  dsimp only at h
  split at h
  · simp at h
  · split at h
    · next hc =>
      simp only [Prod.mk.injEq, Except.ok.injEq] at h
      obtain ⟨hr, hs⟩ := h
      subst hr
      subst hs
      constructor
      · intro _
        exact ⟨rfl, (close_clears s).1, (close_clears s).2⟩
      · intro hne
        exact absurd (by simpa [SMTPStatus_domain_unavailable] using hc) hne
    · next hc =>
      simp only [Prod.mk.injEq, Except.ok.injEq] at h
      obtain ⟨hr, hs⟩ := h
      subst hr
      subst hs
      constructor
      · intro h421
        exact absurd (by simpa [SMTPStatus_domain_unavailable] using h421) hc
      · intro _
        rfl

/-- Witness for C3: a NOOP answered by `421 shutting down` on a connected
instance leaves the instance closed. -/
theorem execute_command_421_closes_witness :
    connState.protocol.isSome = true ∧
    (((SMTPResponse.mk 421 "shutting down").code = 421 →
      connState.close = connState.close ∧ connState.close.protocol = none ∧
        connState.close.transport = none) ∧
     ((SMTPResponse.mk 421 "shutting down").code ≠ 421 →
      connState.close = connState)) :=
  ⟨rfl, execute_command_421_closes connState none
    (fun _ => .response ⟨421, "shutting down"⟩) rfl
    ⟨421, "shutting down"⟩ connState.close rfl⟩

/-- Counterexample for C4: with no engine bound, `execute_command` (and
`get_transport_info` with no transport bound) raises the
`SMTPServerDisconnected` exception ("Server not connected") — the same
`ServerDisconnected` member of the taxonomy, not a distinct `NotConnected`
error as the claim states. -/
theorem not_connected_counterexample :
    SMTPConnection.execute_command defaultState none (fun _ => .response ⟨250, "OK"⟩) =
      (.error (.serverDisconnected "Server not connected"), defaultState) ∧
    SMTPConnection.get_transport_info defaultState "peername" (fun _ _ => none) =
      .error (.serverDisconnected "Server not connected") :=
  ⟨rfl, rfl⟩

/-- C4 (amended): whenever no engine is bound (`protocol = None`),
`execute_command` fails immediately — before any I/O, as the result does
not depend on the protocol-engine oracle and the state is unchanged — and
`get_transport_info` fails likewise when no transport is bound; the error
raised in both places is `SMTPServerDisconnected("Server not connected")`
(the code reuses the `ServerDisconnected` exception rather than a distinct
`NotConnected` one). -/
theorem execute_command_not_connected (s : SMTPConnection) (tk : Option (Option Nat))
    (w : Option Nat → CommandOutcome) (key : String) (info : Nat → String → Option Nat)
    (hp : s.protocol = none) (ht : s.transport = none) :
    SMTPConnection.execute_command s tk w =
      (.error (.serverDisconnected "Server not connected"), s) ∧
    SMTPConnection.get_transport_info s key info =
      .error (.serverDisconnected "Server not connected") := by
  unfold SMTPConnection.execute_command SMTPConnection.get_transport_info
  rw [hp, ht]
  exact ⟨rfl, rfl⟩

/-- Witness for C4 (amended): the fresh instance has no engine and no
transport, and both operations raise the disconnected error. -/
theorem execute_command_not_connected_witness :
    defaultState.protocol = none ∧ defaultState.transport = none ∧
    (SMTPConnection.execute_command defaultState none (fun _ => .response ⟨250, "250 OK"⟩) =
      (.error (.serverDisconnected "Server not connected"), defaultState) ∧
     SMTPConnection.get_transport_info defaultState "cipher" (fun _ _ => none) =
      .error (.serverDisconnected "Server not connected")) :=
  ⟨rfl, rfl, execute_command_not_connected defaultState none
    (fun _ => .response ⟨250, "250 OK"⟩) "cipher" (fun _ _ => none) rfl rfl⟩

/-- The connect kwargs providing only the deprecated string form of
`source_address`. -/
def aliasArgs : ConnectArgs :=
  { sourceAddress := some (some (.str "client.example.com")) }

/-- Counterexample for C9: providing `source_address` as a string does not
overwrite the stored `source_address` (it is left unchanged), and it
modifies `local_hostname`, an option that was not provided. -/
theorem update_settings_counterexample :
    aliasArgs.sourceAddress = some (some (.str "client.example.com")) ∧
    aliasArgs.localHostname = none ∧
    defaultState.localHostname = none ∧
    (_update_settings_from_kwargs defaultState aliasArgs).sourceAddress =
      defaultState.sourceAddress ∧
    (_update_settings_from_kwargs defaultState aliasArgs).sourceAddress ≠
      some (.str "client.example.com") ∧
    (_update_settings_from_kwargs defaultState aliasArgs).localHostname =
      some "client.example.com" :=
  ⟨rfl, rfl, rfl, rfl, by decide, rfl⟩

/-- C9 (amended): the settings merge of `connect` overwrites exactly the
stored fields of the options provided and leaves every option left at the
`_default` sentinel (`None` for `use_tls` / `validate_certs`) unchanged,
with one exception: a string-valued `source_address` (deprecated alias) is
stored into `local_hostname` — overriding any `local_hostname` argument —
and leaves the stored `source_address` unchanged.  Overwritten values are
stored, hence persist for later `connect` calls (apply the unchanged-field
clauses to the updated state).  The non-configuration attributes
(`protocol`, `transport`, `loop`, `_connect_lock`) are never touched. -/
theorem update_settings_merge (s : SMTPConnection) (k : ConnectArgs) :
    (k.hostname = none → (_update_settings_from_kwargs s k).hostname = s.hostname) ∧
    (∀ v, k.hostname = some v → (_update_settings_from_kwargs s k).hostname = v) ∧
    (k.useTls = none → (_update_settings_from_kwargs s k).useTls = s.useTls) ∧
    (∀ v, k.useTls = some v → (_update_settings_from_kwargs s k).useTls = v) ∧
    (k.startTls = none →
      (_update_settings_from_kwargs s k).startTlsOnConnect = s.startTlsOnConnect) ∧
    (∀ v, k.startTls = some v → (_update_settings_from_kwargs s k).startTlsOnConnect = v) ∧
    (k.validateCerts = none →
      (_update_settings_from_kwargs s k).validateCerts = s.validateCerts) ∧
    (∀ v, k.validateCerts = some v → (_update_settings_from_kwargs s k).validateCerts = v) ∧
    (k.port = none → (_update_settings_from_kwargs s k).port = s.port) ∧
    (∀ v, k.port = some v → (_update_settings_from_kwargs s k).port = v) ∧
    (k.username = none → (_update_settings_from_kwargs s k).loginUsername = s.loginUsername) ∧
    (∀ v, k.username = some v → (_update_settings_from_kwargs s k).loginUsername = v) ∧
    (k.password = none → (_update_settings_from_kwargs s k).loginPassword = s.loginPassword) ∧
    (∀ v, k.password = some v → (_update_settings_from_kwargs s k).loginPassword = v) ∧
    (k.timeout = none → (_update_settings_from_kwargs s k).timeout = s.timeout) ∧
    (∀ v, k.timeout = some v → (_update_settings_from_kwargs s k).timeout = v) ∧
    (k.clientCert = none → (_update_settings_from_kwargs s k).clientCert = s.clientCert) ∧
    (∀ v, k.clientCert = some v → (_update_settings_from_kwargs s k).clientCert = v) ∧
    (k.clientKey = none → (_update_settings_from_kwargs s k).clientKey = s.clientKey) ∧
    (∀ v, k.clientKey = some v → (_update_settings_from_kwargs s k).clientKey = v) ∧
    (k.tlsContext = none → (_update_settings_from_kwargs s k).tlsContext = s.tlsContext) ∧
    (∀ v, k.tlsContext = some v → (_update_settings_from_kwargs s k).tlsContext = v) ∧
    (k.certBundle = none → (_update_settings_from_kwargs s k).certBundle = s.certBundle) ∧
    (∀ v, k.certBundle = some v → (_update_settings_from_kwargs s k).certBundle = v) ∧
    (k.socketPath = none → (_update_settings_from_kwargs s k).socketPath = s.socketPath) ∧
    (∀ v, k.socketPath = some v → (_update_settings_from_kwargs s k).socketPath = v) ∧
    (k.sock = none → (_update_settings_from_kwargs s k).sock = s.sock) ∧
    (∀ v, k.sock = some v → (_update_settings_from_kwargs s k).sock = v) ∧
    ((∀ a, k.sourceAddress ≠ some (some (.str a))) → k.localHostname = none →
      (_update_settings_from_kwargs s k).localHostname = s.localHostname) ∧
    ((∀ a, k.sourceAddress ≠ some (some (.str a))) → ∀ v, k.localHostname = some v →
      (_update_settings_from_kwargs s k).localHostname = v) ∧
    (∀ a, k.sourceAddress = some (some (.str a)) →
      (_update_settings_from_kwargs s k).localHostname = some a ∧
      (_update_settings_from_kwargs s k).sourceAddress = s.sourceAddress) ∧
    (k.sourceAddress = none →
      (_update_settings_from_kwargs s k).sourceAddress = s.sourceAddress) ∧
    (∀ v, k.sourceAddress = some v → (∀ a, v ≠ some (.str a)) →
      (_update_settings_from_kwargs s k).sourceAddress = v) ∧
    ((_update_settings_from_kwargs s k).protocol = s.protocol ∧
     (_update_settings_from_kwargs s k).transport = s.transport ∧
     (_update_settings_from_kwargs s k).loop = s.loop ∧
     (_update_settings_from_kwargs s k).connectLock = s.connectLock) := by
  refine ⟨?_, ?_, ?_, ?_, ?_, ?_, ?_, ?_, ?_, ?_, ?_, ?_, ?_, ?_, ?_, ?_, ?_, ?_,
    ?_, ?_, ?_, ?_, ?_, ?_, ?_, ?_, ?_, ?_, ?_, ?_, ?_, ?_, ?_, ⟨rfl, rfl, rfl, rfl⟩⟩
  · intro h
    simp [_update_settings_from_kwargs, h]
  · intro v h
    simp [_update_settings_from_kwargs, h]
  · intro h
    simp [_update_settings_from_kwargs, h]
  · intro v h
    simp [_update_settings_from_kwargs, h]
  · intro h
    simp [_update_settings_from_kwargs, h]
  · intro v h
    simp [_update_settings_from_kwargs, h]
  · intro h
    simp [_update_settings_from_kwargs, h]
  · intro v h
    simp [_update_settings_from_kwargs, h]
  · intro h
    simp [_update_settings_from_kwargs, h]
  · intro v h
    simp [_update_settings_from_kwargs, h]
  · intro h
    simp [_update_settings_from_kwargs, h]
  · intro v h
    simp [_update_settings_from_kwargs, h]
  · intro h
    simp [_update_settings_from_kwargs, h]
  · intro v h
    simp [_update_settings_from_kwargs, h]
  · intro h
    simp [_update_settings_from_kwargs, h]
  · intro v h
    simp [_update_settings_from_kwargs, h]
  · intro h
    simp [_update_settings_from_kwargs, h]
  · intro v h
    simp [_update_settings_from_kwargs, h]
  · intro h
    simp [_update_settings_from_kwargs, h]
  · intro v h
    simp [_update_settings_from_kwargs, h]
  · intro h
    simp [_update_settings_from_kwargs, h]
  · intro v h
    simp [_update_settings_from_kwargs, h]
  · intro h
    simp [_update_settings_from_kwargs, h]
  · intro v h
    simp [_update_settings_from_kwargs, h]
  · intro h
    simp [_update_settings_from_kwargs, h]
  · intro v h
    simp [_update_settings_from_kwargs, h]
  · intro h
    simp [_update_settings_from_kwargs, h]
  · intro v h
    simp [_update_settings_from_kwargs, h]
  · intro hns hl
    rcases hsa : k.sourceAddress with _ | v
    · simp [_update_settings_from_kwargs, hsa, hl]
    · rcases v with _ | sa
      · simp [_update_settings_from_kwargs, hsa, hl]
      · rcases sa with ⟨a⟩ | ⟨a, b⟩
        · exact absurd hsa (hns a)
        · simp [_update_settings_from_kwargs, hsa, hl]
  · intro hns v hl
    rcases hsa : k.sourceAddress with _ | v2
    · simp [_update_settings_from_kwargs, hsa, hl]
    · rcases v2 with _ | sa
      · simp [_update_settings_from_kwargs, hsa, hl]
      · rcases sa with ⟨a⟩ | ⟨a, b⟩
        · exact absurd hsa (hns a)
        · simp [_update_settings_from_kwargs, hsa, hl]
  · intro a ha
    constructor
    · simp [_update_settings_from_kwargs, ha]
    · simp [_update_settings_from_kwargs, ha]
  · intro h
    simp [_update_settings_from_kwargs, h]
  · intro v hv hns
    rcases v with _ | sa
    · simp [_update_settings_from_kwargs, hv]
    · rcases sa with ⟨a⟩ | ⟨a, b⟩
      · exact absurd rfl (hns a)
      · simp [_update_settings_from_kwargs, hv]

/-- Witness for C9 (amended): an empty merge leaves the hostname
unchanged. -/
theorem update_settings_merge_witness :
    ({} : ConnectArgs).hostname = none ∧
    (_update_settings_from_kwargs defaultState {}).hostname = defaultState.hostname :=
  ⟨rfl, (update_settings_merge defaultState {}).1 rfl⟩

/-- C10: because `__init__` defaults `hostname` to `"localhost"` rather
than leaving it unset, constructing with `sock` or `socket_path` while
leaving `hostname` at its default raises the mutual-exclusion
`ValueError`; passing `hostname=None` (with `port` unset or `None`) makes
validation pass; the same happens at connect time on a default-constructed
instance: a merge providing only `sock` fails validation, and one also
nulling out `hostname` and `port` passes. -/
theorem init_default_hostname_conflict :
    (∀ n : Nat, SMTPConnection.init { sock := some n } =
      .error (.valueError
        "The socket option is not compatible with hostname, port or socket_path")) ∧
    (∀ p : String, SMTPConnection.init { socketPath := some p } =
      .error (.valueError "The socket_path option is not compatible with hostname/port")) ∧
    SMTPConnection.init {} = .ok defaultState ∧
    (∀ n : Nat, SMTPConnection.init { hostname := none, sock := some n } =
      .ok { defaultState with hostname := none, sock := some n }) ∧
    (∀ p : String, SMTPConnection.init { hostname := none, socketPath := some p } =
      .ok { defaultState with hostname := none, socketPath := some p }) ∧
    (∀ (n : Nat) (w : ConnectWorld),
      SMTPConnection.connect defaultState { sock := some (some n) } w =
        (.error (.valueError
          "The socket option is not compatible with hostname, port or socket_path"),
         _update_settings_from_kwargs defaultState { sock := some (some n) })) ∧
    (∀ n : Nat, _validate_config (_update_settings_from_kwargs defaultState
      { hostname := some none, port := some none, sock := some (some n) }) = .ok ()) :=
  ⟨fun _ => rfl, fun _ => rfl, rfl, fun _ => rfl, fun _ => rfl, fun _ _ => rfl, fun _ => rfl⟩

end Aiosmtplib
